import Mathlib

/-
Verification of the DoorBird Home Assistant integration
(homeassistant/components/doorbird: __init__.py, logbook.py, util.py).

Python dicts are embedded as association lists (`List (String × α)`) with
Python semantics: `d[k]` is the first binding for `k`, `d[k] = v` replaces the
existing binding in place (or appends), `d.pop(k)` removes the first binding.
Exceptions (`KeyError`, `IndexError`, raising `ConfigEntryNotReady`) are
embedded with `Except`.  Side effects performed on external collaborators
(the vendor device monitor, the platform forwarders) are recorded in an
ordered effect trace.
-/

set_option autoImplicit false

namespace Doorbird

universe u

/-- Python `d.get(k)` / `d[k]`-lookup on a dict embedded as an association
list: the value of the first binding whose key is `k`, if any. -/
def dictGet {α : Type u} (k : String) : List (String × α) → Option α
  | [] => none
  | (k', v) :: rest => if k' = k then some v else dictGet k rest

/-- Python `d[k] = v`: replace the first binding for `k` in place, or append
a new binding at the end when `k` is absent. -/
def dictSet {α : Type u} (k : String) (v : α) : List (String × α) → List (String × α)
  | [] => [(k, v)]
  | (k', v') :: rest => if k' = k then (k, v) :: rest else (k', v') :: dictSet k v rest

/-- Python `d.pop(k)` restricted to its effect on the dict: drop the first
binding for `k` (in `async_unload_entry` the key is known to be present
when `pop` runs). -/
def dictPop {α : Type u} (k : String) : List (String × α) → List (String × α)
  | [] => []
  | (k', v') :: rest => if k' = k then rest else (k', v') :: dictPop k rest

/-- Number of bindings a dict embedding holds for key `k`.  A genuine Python
dict always has at most one. -/
def keyCount {α : Type u} (k : String) (d : List (String × α)) : Nat :=
  d.countP (fun p => p.1 = k)

/-- Modelled from the spec: the integration domain constant `DOMAIN` is
imported from `homeassistant/components/doorbird/const.py`, which is not part
of the sources here; for the DoorBird integration it is the underscore-free
string "doorbird". -/
def DOMAIN : String := "doorbird"

/-- Modelled from the spec: the payload key `ATTR_ENTITY_ID` is imported from
`homeassistant.const`; its value is the string "entity_id". -/
def ATTR_ENTITY_ID : String := "entity_id"

/-- The vendor `DoorBird` device client (`doorbirdpy.DoorBird`), reduced to
the construction arguments and the four URL getters this integration reads. -/
structure DoorBird where
  host : String
  username : String
  password : String
  secure : Bool
  port : Nat
  live_video_url : String
  live_image_url : String
  rtsp_live_video_url : String
  html5_viewer_url : String
deriving DecidableEq, Repr

/-- `ConfiguredDoorBird.__init__`: pairs a device client with the optional
user-assigned display name (`CONF_NAME` may be absent). -/
structure ConfiguredDoorBird where
  name : Option String
  device : DoorBird
deriving DecidableEq, Repr

/-- The value of `device.info()`: a key/value map (it carries the MAC address
under "PRIMARY_MAC_ADDR" or "WIFI_MAC_ADDR"). -/
def DeviceInfo : Type := List (String × String)

instance : DecidableEq DeviceInfo := by
  unfold DeviceInfo
  infer_instance

/-- The per-config-entry record stored at `hass.data[DOMAIN][config_entry_id]`:
a dict with the two fixed keys `DOOR_STATION` and `DOOR_STATION_INFO`,
embedded as a record. -/
structure RegistryEntry where
  door_station : ConfiguredDoorBird
  door_station_info : DeviceInfo
deriving DecidableEq

/-- The shared registry `hass.data[DOMAIN]` restricted to its config-entry-id
keys (the `DOOR_STATION_EVENT_ENTITY_IDS` index that shares the same dict is
passed separately where it is read). -/
def Registry : Type := List (String × RegistryEntry)

instance : DecidableEq Registry := by
  unfold Registry
  infer_instance

/-- Exceptions that the embedded code can raise or signal. -/
inductive HAError where
  | configEntryNotReady
  | keyError (key : String)
  | indexError
deriving DecidableEq, Repr

/-- Outcome of `_init_doorbird_device` (`device.ready(), device.info()`) as
observed by `async_setup_entry`'s `try` block: either both calls return
(`status` is the readiness tuple), or a `requests.exceptions.HTTPError` with
some status code was raised, or an `OSError` was raised. -/
inductive HandshakeResult where
  | ok (status : Bool × Nat) (info : DeviceInfo)
  | httpError (statusCode : Nat)
  | osError (message : String)
deriving DecidableEq

/-- Externally visible side effects, recorded in program order. -/
inductive Effect where
  | startMonitoring (device : DoorBird)
  | stopMonitoring (device : DoorBird)
  | forwardEntrySetups (entryId : String)
  | unloadPlatforms (entryId : String)
  | removeRegistryEntry (entryId : String)
deriving DecidableEq

instance {ε : Type u} {α : Type u} [DecidableEq ε] [DecidableEq α] :
    DecidableEq (Except ε α) := fun x y =>
  match x, y with
  | .ok a, .ok b =>
      if h : a = b then .isTrue (by rw [h]) else .isFalse (fun hc => by cases hc; exact h rfl)
  | .ok _, .error _ => .isFalse (fun hc => by cases hc)
  | .error _, .ok _ => .isFalse (fun hc => by cases hc)
  | .error e, .error f =>
      if h : e = f then .isTrue (by rw [h]) else .isFalse (fun hc => by cases hc; exact h rfl)

/-- Result of a lifecycle call: the Python return value (or the exception it
raised), the registry afterwards, and the ordered effect trace. -/
structure CallResult where
  returned : Except HAError Bool
  registry : Registry
  effects : List Effect
deriving DecidableEq

/-- `async_setup_entry` (`__init__.py` lines 63-130).  The handshake outcome
is the value/exception delivered by the executor job; on success with a ready
status the function builds `ConfiguredDoorBird(device, name)`, starts
monitoring, stores the registry entry and forwards platform setups.  A 401
`HTTPError` returns `False`; any other `HTTPError`, an `OSError`, or a falsy
`status[0]` raises `ConfigEntryNotReady`. -/
def async_setup_entry (registry : Registry) (config_entry_id : String)
    (name : Option String) (device : DoorBird) (handshake : HandshakeResult) :
    CallResult :=
  match handshake with
  | .httpError statusCode =>
      if statusCode = 401 then
        ⟨.ok false, registry, []⟩
      else
        ⟨.error .configEntryNotReady, registry, []⟩
  | .osError _ => ⟨.error .configEntryNotReady, registry, []⟩
  | .ok status info =>
      if status.1 = false then
        ⟨.error .configEntryNotReady, registry, []⟩
      else
        let doorstation : ConfiguredDoorBird := ⟨name, device⟩
        ⟨.ok true,
         dictSet config_entry_id ⟨doorstation, info⟩ registry,
         [.startMonitoring device, .forwardEntrySetups config_entry_id]⟩

/-- `async_unload_entry` (`__init__.py` lines 137-146).  It first reads
`hass.data[DOMAIN][entry.entry_id]` (a `KeyError` when the id is unknown) and
awaits `stop_monitoring` on the session's device, then delegates to
`async_unload_platforms` (whose reported result is the parameter
`unload_ok`) and pops the registry entry only when that delegation reports
success. -/
def async_unload_entry (registry : Registry) (entry_id : String)
    (unload_ok : Bool) : CallResult :=
  match dictGet entry_id registry with
  | none => ⟨.error (.keyError entry_id), registry, []⟩
  | some entry =>
      if unload_ok then
        ⟨.ok true, dictPop entry_id registry,
         [.stopMonitoring entry.door_station.device,
          .unloadPlatforms entry_id,
          .removeRegistryEntry entry_id]⟩
      else
        ⟨.ok false, registry,
         [.stopMonitoring entry.door_station.device,
          .unloadPlatforms entry_id]⟩

/-- `get_mac_address_from_doorstation_info` (`util.py` lines 6-10): return
the wired MAC when "PRIMARY_MAC_ADDR" is a key, otherwise index
"WIFI_MAC_ADDR" (a `KeyError` when that is absent too). -/
def get_mac_address_from_doorstation_info (doorstation_info : DeviceInfo) :
    Except HAError String :=
  match dictGet "PRIMARY_MAC_ADDR" doorstation_info with
  | some mac => .ok mac
  | none =>
      match dictGet "WIFI_MAC_ADDR" doorstation_info with
      | some mac => .ok mac
      | none => .error (.keyError "WIFI_MAC_ADDR")

/-- Python's decimal digit character for `d % 10`. -/
def digitChar : Nat → Char
  | 0 => '0'
  | 1 => '1'
  | 2 => '2'
  | 3 => '3'
  | 4 => '4'
  | 5 => '5'
  | 6 => '6'
  | 7 => '7'
  | 8 => '8'
  | _ + 9 => '9'

/-- Zero-padded decimal rendering to exactly `width` characters, as produced
by Python's `%04d`-style formatting on the in-range field values of a
`datetime` (every field is below `10 ^ width` there). -/
def padChars : Nat → Nat → List Char
  | 0, _ => []
  | width + 1, n => padChars width (n / 10) ++ [digitChar (n % 10)]

/-- A `datetime.datetime` value as produced by `dt_util.utcnow()`: a
timezone-aware UTC instant.  Python's constructor enforces the field ranges
in `Datetime.valid`. -/
structure Datetime where
  year : Nat
  month : Nat
  day : Nat
  hour : Nat
  minute : Nat
  second : Nat
  microsecond : Nat
deriving DecidableEq, Repr

/-- Field ranges that `datetime.datetime` enforces at construction. -/
def Datetime.valid (t : Datetime) : Prop :=
  1 ≤ t.year ∧ t.year ≤ 9999 ∧
  1 ≤ t.month ∧ t.month ≤ 12 ∧
  1 ≤ t.day ∧ t.day ≤ 31 ∧
  t.hour ≤ 23 ∧ t.minute ≤ 59 ∧ t.second ≤ 59 ∧
  t.microsecond ≤ 999999

instance (t : Datetime) : Decidable t.valid := by
  unfold Datetime.valid
  infer_instance

/-- `datetime.isoformat()` on a UTC-aware value:
`YYYY-MM-DDTHH:MM:SS`, then `.ffffff` when the microsecond field is nonzero,
then the UTC offset `+00:00`. -/
def Datetime.isoformat (t : Datetime) : String :=
  ⟨padChars 4 t.year ++ '-' :: padChars 2 t.month ++ '-' :: padChars 2 t.day ++
   'T' :: padChars 2 t.hour ++ ':' :: padChars 2 t.minute ++ ':' :: padChars 2 t.second ++
   (if t.microsecond = 0 then [] else '.' :: padChars 6 t.microsecond) ++
   ['+', '0', '0', ':', '0', '0']⟩

/-- Decimal digit test on a character. -/
def isDigitChar (c : Char) : Bool :=
  48 ≤ c.toNat && c.toNat ≤ 57

/-- Checker for the tail of an ISO-8601 UTC timestamp after the seconds
field: an optional fractional-seconds group, then the `+00:00` offset.
Written from the ISO-8601 grammar (the spec's phrase "well-formed ISO-8601
UTC timestamp"), to be compared against `Datetime.isoformat`. -/
def isoTail : List Char → Bool
  | ['+', '0', '0', ':', '0', '0'] => true
  | '.' :: u1 :: u2 :: u3 :: u4 :: u5 :: u6 :: '+' :: '0' :: '0' :: ':' :: '0' :: '0' :: [] =>
      isDigitChar u1 && isDigitChar u2 && isDigitChar u3 &&
      isDigitChar u4 && isDigitChar u5 && isDigitChar u6
  | _ => false

/-- Checker for a full ISO-8601 UTC timestamp
`YYYY-MM-DDTHH:MM:SS[.ffffff]+00:00`: written from the ISO-8601 grammar, not
from the code, to give "well-formed" independent content. -/
def isISO8601UTC : List Char → Bool
  | y1 :: y2 :: y3 :: y4 :: '-' :: mo1 :: mo2 :: '-' :: d1 :: d2 ::
      'T' :: h1 :: h2 :: ':' :: mi1 :: mi2 :: ':' :: s1 :: s2 :: rest =>
      isDigitChar y1 && isDigitChar y2 && isDigitChar y3 && isDigitChar y4 &&
      isDigitChar mo1 && isDigitChar mo2 && isDigitChar d1 && isDigitChar d2 &&
      isDigitChar h1 && isDigitChar h2 && isDigitChar mi1 && isDigitChar mi2 &&
      isDigitChar s1 && isDigitChar s2 && isoTail rest
  | _ => false

/-- `ConfiguredDoorBird.get_event_data` (`__init__.py` lines 167-175): a
fresh dict of the current UTC time in ISO format and the four media URLs
read from the device client.  `now` is the value `dt_util.utcnow()` returns
at this call. -/
def get_event_data (doorstation : ConfiguredDoorBird) (now : Datetime) :
    List (String × Option String) :=
  [("timestamp", some now.isoformat),
   ("live_video_url", some doorstation.device.live_video_url),
   ("live_image_url", some doorstation.device.live_image_url),
   ("rtsp_live_video_url", some doorstation.device.rtsp_live_video_url),
   ("html5_viewer_url", some doorstation.device.html5_viewer_url)]

/-- An event fired on the Home Assistant bus: its type string and its data
dict (values may be `None`, hence `Option String`). -/
structure BusEvent where
  event_type : String
  data : List (String × Option String)
deriving DecidableEq

/-- `async_notify_event` (`__init__.py` lines 101-107): build
`doorstation.get_event_data()`, store the `.get(event)` result of the
`DOOR_STATION_EVENT_ENTITY_IDS` index under `ATTR_ENTITY_ID` (Python stores
`None` when the index has no binding for `event`), and fire
`f"DOMAIN_event"` with that data. -/
def async_notify_event (doorstation : ConfiguredDoorBird)
    (entityIds : List (String × String)) (now : Datetime) (event : String) :
    BusEvent :=
  let event_data := get_event_data doorstation now
  let event_data := dictSet ATTR_ENTITY_ID (dictGet event entityIds) event_data
  ⟨DOMAIN ++ "_" ++ event, event_data⟩

/-- Python `s.split(sep, 1)` reduced to the split point: the characters
before the first `sep` and those after it, or `none` when `sep` never
occurs (in which case `split` returns the one-element list `[s]` and
indexing `[1]` raises `IndexError`). -/
def splitFirst (sep : Char) : List Char → Option (List Char × List Char)
  | [] => none
  | c :: rest =>
      if c = sep then some ([], rest)
      else (splitFirst sep rest).map (fun p => (c :: p.1, p.2))

/-- One logbook description: the `LOGBOOK_ENTRY_NAME`,
`LOGBOOK_ENTRY_MESSAGE` and `LOGBOOK_ENTRY_ENTITY_ID` values. -/
structure LogbookEntry where
  name : String
  message : String
  entity_id : Option String
deriving DecidableEq

/-- `async_describe_logbook_event` (`logbook.py` lines 19-30): take what
follows the first "_" of the event type (`IndexError` when there is no "_"),
and build the description whose entity id is the
`DOOR_STATION_EVENT_ENTITY_IDS` binding for that suffix, defaulting to
`event.data.get(ATTR_ENTITY_ID)`. -/
def async_describe_logbook_event (entityIds : List (String × String))
    (event : BusEvent) : Except HAError LogbookEntry :=
  match splitFirst '_' event.event_type.data with
  | none => .error .indexError
  | some (_, kindChars) =>
      let doorbird_event : String := ⟨kindChars⟩
      .ok ⟨"Doorbird",
           "Event " ++ event.event_type ++ " was fired",
           match dictGet doorbird_event entityIds with
           | some v => some v
           | none => Option.join (dictGet ATTR_ENTITY_ID event.data)⟩

theorem dictGet_dictSet_self {α : Type u} (k : String) (v : α) (d : List (String × α)) :
    dictGet k (dictSet k v d) = some v := by
  induction d with
  | nil => simp [dictGet, dictSet]
  | cons p rest ih =>
      obtain ⟨k', v'⟩ := p
      by_cases h : k' = k
      · simp [dictGet, dictSet, h]
      · simp [dictGet, dictSet, h, ih]

theorem keyCount_cons {α : Type u} (k k' : String) (v : α)
    (rest : List (String × α)) :
    keyCount k ((k', v) :: rest) = keyCount k rest + (if k' = k then 1 else 0) := by
  simp [keyCount, List.countP_cons]

theorem dictGet_eq_none_of_keyCount_zero {α : Type u} (k : String)
    (d : List (String × α)) (h : keyCount k d = 0) : dictGet k d = none := by
  induction d with
  | nil => rfl
  | cons p rest ih =>
      obtain ⟨k', v'⟩ := p
      rw [keyCount_cons] at h
      by_cases hk : k' = k
      · rw [if_pos hk] at h
        exact absurd h (by omega)
      · rw [if_neg hk] at h
        simp only [dictGet, if_neg hk]
        exact ih (by omega)

theorem keyCount_dictSet {α : Type u} (k : String) (v : α) (d : List (String × α))
    (h : keyCount k d ≤ 1) : keyCount k (dictSet k v d) = 1 := by
  induction d with
  | nil => simp [dictSet, keyCount]
  | cons p rest ih =>
      obtain ⟨k', v'⟩ := p
      rw [keyCount_cons] at h
      by_cases hk : k' = k
      · rw [if_pos hk] at h
        simp only [dictSet, if_pos hk, keyCount_cons]
        simp only [if_true, eq_self_iff_true]
        omega
      · rw [if_neg hk] at h
        simp only [dictSet, if_neg hk, keyCount_cons, if_neg hk]
        rw [ih (by omega)]

theorem dictGet_dictPop_self {α : Type u} (k : String) (d : List (String × α))
    (h : keyCount k d ≤ 1) : dictGet k (dictPop k d) = none := by
  induction d with
  | nil => rfl
  | cons p rest ih =>
      obtain ⟨k', v'⟩ := p
      rw [keyCount_cons] at h
      by_cases hk : k' = k
      · rw [if_pos hk] at h
        simp only [dictPop, if_pos hk]
        exact dictGet_eq_none_of_keyCount_zero k rest (by omega)
      · rw [if_neg hk] at h
        simp only [dictPop, if_neg hk, dictGet]
        exact ih (by omega)

theorem isDigitChar_digitChar (d : Nat) : isDigitChar (digitChar d) = true := by
  rcases d with _|_|_|_|_|_|_|_|_|d <;> rfl

theorem padChars_two (n : Nat) :
    padChars 2 n = [digitChar (n / 10 % 10), digitChar (n % 10)] := by
  simp [padChars]

theorem padChars_four (n : Nat) :
    padChars 4 n =
      [digitChar (n / 1000 % 10), digitChar (n / 100 % 10),
       digitChar (n / 10 % 10), digitChar (n % 10)] := by
  simp [padChars, Nat.div_div_eq_div_mul]

theorem padChars_six (n : Nat) :
    padChars 6 n =
      [digitChar (n / 100000 % 10), digitChar (n / 10000 % 10),
       digitChar (n / 1000 % 10), digitChar (n / 100 % 10),
       digitChar (n / 10 % 10), digitChar (n % 10)] := by
  simp [padChars, Nat.div_div_eq_div_mul]

theorem isoTail_frac (u1 u2 u3 u4 u5 u6 : Char)
    (h1 : isDigitChar u1 = true) (h2 : isDigitChar u2 = true)
    (h3 : isDigitChar u3 = true) (h4 : isDigitChar u4 = true)
    (h5 : isDigitChar u5 = true) (h6 : isDigitChar u6 = true) :
    isoTail ('.' :: u1 :: u2 :: u3 :: u4 :: u5 :: u6 ::
      '+' :: '0' :: '0' :: ':' :: '0' :: '0' :: []) = true := by
  simp [isoTail, h1, h2, h3, h4, h5, h6]

theorem isISO8601UTC_parts (y1 y2 y3 y4 mo1 mo2 d1 d2 h1 h2 mi1 mi2 s1 s2 : Char)
    (rest : List Char)
    (hc1 : isDigitChar y1 = true) (hc2 : isDigitChar y2 = true)
    (hc3 : isDigitChar y3 = true) (hc4 : isDigitChar y4 = true)
    (hc5 : isDigitChar mo1 = true) (hc6 : isDigitChar mo2 = true)
    (hc7 : isDigitChar d1 = true) (hc8 : isDigitChar d2 = true)
    (hc9 : isDigitChar h1 = true) (hc10 : isDigitChar h2 = true)
    (hc11 : isDigitChar mi1 = true) (hc12 : isDigitChar mi2 = true)
    (hc13 : isDigitChar s1 = true) (hc14 : isDigitChar s2 = true)
    (hrest : isoTail rest = true) :
    isISO8601UTC (y1 :: y2 :: y3 :: y4 :: '-' :: mo1 :: mo2 :: '-' :: d1 :: d2 ::
      'T' :: h1 :: h2 :: ':' :: mi1 :: mi2 :: ':' :: s1 :: s2 :: rest) = true := by
  simp [isISO8601UTC, hc1, hc2, hc3, hc4, hc5, hc6, hc7, hc8, hc9, hc10,
        hc11, hc12, hc13, hc14, hrest]

theorem isISO8601UTC_isoformat (t : Datetime) :
    isISO8601UTC t.isoformat.data = true := by
  show isISO8601UTC
    (padChars 4 t.year ++ '-' :: padChars 2 t.month ++ '-' :: padChars 2 t.day ++
     'T' :: padChars 2 t.hour ++ ':' :: padChars 2 t.minute ++ ':' :: padChars 2 t.second ++
     (if t.microsecond = 0 then [] else '.' :: padChars 6 t.microsecond) ++
     ['+', '0', '0', ':', '0', '0']) = true
  rw [padChars_four, padChars_two, padChars_two, padChars_two, padChars_two,
      padChars_two]
  by_cases hms : t.microsecond = 0
  · simp only [hms, if_pos, List.cons_append, List.nil_append, List.append_nil]
    exact isISO8601UTC_parts _ _ _ _ _ _ _ _ _ _ _ _ _ _ _
      (isDigitChar_digitChar _) (isDigitChar_digitChar _) (isDigitChar_digitChar _)
      (isDigitChar_digitChar _) (isDigitChar_digitChar _) (isDigitChar_digitChar _)
      (isDigitChar_digitChar _) (isDigitChar_digitChar _) (isDigitChar_digitChar _)
      (isDigitChar_digitChar _) (isDigitChar_digitChar _) (isDigitChar_digitChar _)
      (isDigitChar_digitChar _) (isDigitChar_digitChar _) rfl
  · rw [if_neg hms, padChars_six]
    simp only [List.cons_append, List.nil_append, List.append_nil]
    exact isISO8601UTC_parts _ _ _ _ _ _ _ _ _ _ _ _ _ _ _
      (isDigitChar_digitChar _) (isDigitChar_digitChar _) (isDigitChar_digitChar _)
      (isDigitChar_digitChar _) (isDigitChar_digitChar _) (isDigitChar_digitChar _)
      (isDigitChar_digitChar _) (isDigitChar_digitChar _) (isDigitChar_digitChar _)
      (isDigitChar_digitChar _) (isDigitChar_digitChar _) (isDigitChar_digitChar _)
      (isDigitChar_digitChar _) (isDigitChar_digitChar _)
      (isoTail_frac _ _ _ _ _ _
        (isDigitChar_digitChar _) (isDigitChar_digitChar _) (isDigitChar_digitChar _)
        (isDigitChar_digitChar _) (isDigitChar_digitChar _) (isDigitChar_digitChar _))

theorem splitFirst_append (sep : Char) (l₁ l₂ : List Char) (h : sep ∉ l₁) :
    splitFirst sep (l₁ ++ sep :: l₂) = some (l₁, l₂) := by
  induction l₁ with
  | nil => simp [splitFirst]
  | cons c rest ih =>
      have hc : ¬ c = sep := fun hc => h (by simp [hc])
      have hrest : sep ∉ rest := fun hr => h (List.mem_cons_of_mem _ hr)
      simp only [List.cons_append, splitFirst, if_neg hc, List.append_eq,
                 ih hrest, Option.map_some']

/-- Concrete device client used by the witness statements. -/
def sampleDevice : DoorBird :=
  ⟨"192.168.1.5", "user", "secret", false, 80,
   "http://h/lv", "http://h/li", "rtsp://h/rt", "http://h/h5"⟩

/-- Concrete `device.info()` result used by the witness statements. -/
def sampleInfo : DeviceInfo :=
  [("PRIMARY_MAC_ADDR", "AABBCCDDEEFF"), ("BUILD_NUMBER", "15870439")]

/-- Concrete registry record used by the witness statements. -/
def sampleEntry : RegistryEntry := ⟨⟨some "Front Door", sampleDevice⟩, sampleInfo⟩

/-- Concrete UTC instant used by the witness statements. -/
def sampleTime : Datetime := ⟨2024, 5, 6, 7, 8, 9, 0⟩

/-- C1: when the handshake raises an HTTP error with status 401,
`async_setup_entry` returns `False` — a permanent-failure result distinct
from the retryable `ConfigEntryNotReady` exception — and the shared registry
is left unchanged, so no registry entry is created under the config entry
id. -/
theorem C1_setup_401_permanent_failure_no_entry
    (registry : Registry) (config_entry_id : String) (name : Option String)
    (device : DoorBird) :
    (async_setup_entry registry config_entry_id name device (.httpError 401)).returned
        = .ok false ∧
    (async_setup_entry registry config_entry_id name device (.httpError 401)).returned
        ≠ .error .configEntryNotReady ∧
    (async_setup_entry registry config_entry_id name device (.httpError 401)).registry
        = registry := by
  refine ⟨rfl, ?_, rfl⟩
  intro h
  exact Except.noConfusion h

/-- C2: when the handshake raises an `OSError`, or an HTTP error whose
status is not 401, or it returns a status tuple whose first element is
falsy, `async_setup_entry` raises `ConfigEntryNotReady` (the retryable
failure, distinct from the permanent `return False`) and the registry is
left unchanged. -/
theorem C2_setup_retryable_failures_no_entry
    (registry : Registry) (config_entry_id : String) (name : Option String)
    (device : DoorBird) (statusCode : Nat) (hcode : statusCode ≠ 401)
    (message : String) (status : Bool × Nat) (hstatus : status.1 = false)
    (info : DeviceInfo) :
    async_setup_entry registry config_entry_id name device (.httpError statusCode)
        = ⟨.error .configEntryNotReady, registry, []⟩ ∧
    async_setup_entry registry config_entry_id name device (.osError message)
        = ⟨.error .configEntryNotReady, registry, []⟩ ∧
    async_setup_entry registry config_entry_id name device (.ok status info)
        = ⟨.error .configEntryNotReady, registry, []⟩ := by
  refine ⟨?_, rfl, ?_⟩
  · simp [async_setup_entry, hcode]
  · simp [async_setup_entry, hstatus]

/-- C2 witness at a transport error, an HTTP 500 and a not-ready status. -/
theorem C2_setup_retryable_failures_no_entry_witness :
    (500 : Nat) ≠ 401 ∧ ((false, 503) : Bool × Nat).1 = false ∧
    (async_setup_entry [] "entry1" none sampleDevice (.httpError 500)
        = ⟨.error .configEntryNotReady, [], []⟩ ∧
     async_setup_entry [] "entry1" none sampleDevice (.osError "connection refused")
        = ⟨.error .configEntryNotReady, [], []⟩ ∧
     async_setup_entry [] "entry1" none sampleDevice (.ok (false, 503) sampleInfo)
        = ⟨.error .configEntryNotReady, [], []⟩) :=
  ⟨by decide, rfl,
   C2_setup_retryable_failures_no_entry [] "entry1" none sampleDevice 500
     (by decide) "connection refused" (false, 503) rfl sampleInfo⟩

/-- C3: when the handshake returns a ready status, `async_setup_entry`
returns `True` and stores under the config entry id exactly one registry
entry, holding exactly `ConfiguredDoorBird(device, name)` together with the
info returned by the handshake. -/
theorem C3_setup_success_stores_exactly_one_entry
    (registry : Registry) (config_entry_id : String) (name : Option String)
    (device : DoorBird) (status : Bool × Nat) (info : DeviceInfo)
    (hready : status.1 = true)
    (hdict : keyCount config_entry_id registry ≤ 1) :
    (async_setup_entry registry config_entry_id name device (.ok status info)).returned
        = .ok true ∧
    dictGet config_entry_id
        (async_setup_entry registry config_entry_id name device (.ok status info)).registry
        = some ⟨⟨name, device⟩, info⟩ ∧
    keyCount config_entry_id
        (async_setup_entry registry config_entry_id name device (.ok status info)).registry
        = 1 := by
  have hres : async_setup_entry registry config_entry_id name device (.ok status info)
      = ⟨.ok true, dictSet config_entry_id ⟨⟨name, device⟩, info⟩ registry,
         [.startMonitoring device, .forwardEntrySetups config_entry_id]⟩ := by
    simp [async_setup_entry, hready]
  rw [hres]
  exact ⟨rfl, dictGet_dictSet_self config_entry_id _ registry,
         keyCount_dictSet config_entry_id _ registry hdict⟩

/-- C3 witness on an empty registry with a ready device. -/
theorem C3_setup_success_stores_exactly_one_entry_witness :
    ((true, 200) : Bool × Nat).1 = true ∧
    keyCount "entry1" ([] : Registry) ≤ 1 ∧
    ((async_setup_entry [] "entry1" (some "Front Door") sampleDevice
        (.ok (true, 200) sampleInfo)).returned = .ok true ∧
     dictGet "entry1"
        (async_setup_entry [] "entry1" (some "Front Door") sampleDevice
          (.ok (true, 200) sampleInfo)).registry
        = some ⟨⟨some "Front Door", sampleDevice⟩, sampleInfo⟩ ∧
     keyCount "entry1"
        (async_setup_entry [] "entry1" (some "Front Door") sampleDevice
          (.ok (true, 200) sampleInfo)).registry
        = 1) :=
  ⟨rfl, by decide,
   C3_setup_success_stores_exactly_one_entry [] "entry1" (some "Front Door")
     sampleDevice (true, 200) sampleInfo rfl (by decide)⟩

/-- C10: whenever `async_setup_entry` does not return `True` (a 401, another
HTTP error, an `OSError`, or a not-ready status), it performs no external
effect — in particular `start_monitoring` is never invoked — and the
registry is left completely unchanged. -/
theorem C10_setup_failure_is_atomic
    (registry : Registry) (config_entry_id : String) (name : Option String)
    (device : DoorBird) (handshake : HandshakeResult)
    (hfail : (async_setup_entry registry config_entry_id name device handshake).returned
        ≠ .ok true) :
    (async_setup_entry registry config_entry_id name device handshake).effects = [] ∧
    (async_setup_entry registry config_entry_id name device handshake).registry
        = registry := by
  cases handshake with
  | httpError statusCode =>
      by_cases h401 : statusCode = 401 <;> simp [async_setup_entry, h401]
  | osError message => simp [async_setup_entry]
  | ok status info =>
      by_cases hready : status.1 = false
      · simp [async_setup_entry, hready]
      · exact absurd (by simp [async_setup_entry, hready]) hfail

/-- C10 witness at an HTTP 500 handshake failure. -/
theorem C10_setup_failure_is_atomic_witness :
    (async_setup_entry [("other", sampleEntry)] "entry1" none sampleDevice
        (.httpError 500)).returned ≠ .ok true ∧
    ((async_setup_entry [("other", sampleEntry)] "entry1" none sampleDevice
        (.httpError 500)).effects = [] ∧
     (async_setup_entry [("other", sampleEntry)] "entry1" none sampleDevice
        (.httpError 500)).registry = [("other", sampleEntry)]) :=
  ⟨by decide,
   C10_setup_failure_is_atomic [("other", sampleEntry)] "entry1" none sampleDevice
     (.httpError 500) (by decide)⟩

/-- C7 counterexample: on an empty registry, `async_unload_entry` does not
return — it raises a `KeyError` while reading
`hass.data[DOMAIN][entry.entry_id]` — so unload with an unknown entry id is
not crash-free as the claim states. -/
theorem C7_counterexample_unload_unknown_id_raises :
    (async_unload_entry [] "entry1" true).returned = .error (.keyError "entry1") ∧
    ¬ (∃ returnValue, (async_unload_entry [] "entry1" true).returned
        = .ok returnValue) := by
  refine ⟨rfl, ?_⟩
  rintro ⟨returnValue, h⟩
  exact Except.noConfusion h

/-- C7 (amended): calling unload with an entry id for which no registry
entry exists leaves the registry unchanged and performs no effect — but it
raises a `KeyError` rather than returning normally. -/
theorem C7_unload_unknown_id_keyerror_registry_unchanged
    (registry : Registry) (entry_id : String) (unload_ok : Bool)
    (habsent : dictGet entry_id registry = none) :
    async_unload_entry registry entry_id unload_ok
        = ⟨.error (.keyError entry_id), registry, []⟩ := by
  simp [async_unload_entry, habsent]

/-- C7 witness on an empty registry. -/
theorem C7_unload_unknown_id_keyerror_registry_unchanged_witness :
    dictGet "entry1" ([] : Registry) = none ∧
    async_unload_entry [] "entry1" true
        = ⟨.error (.keyError "entry1"), [], []⟩ :=
  ⟨rfl, C7_unload_unknown_id_keyerror_registry_unchanged [] "entry1" true rfl⟩

/-- C8: when a registry entry exists for the id, unload stops the session's
device monitor first (it is the first effect, before any
`removeRegistryEntry` effect), and the registry entry is removed precisely
when the delegated platform unload reports success; on a failed delegation
the registry — and the entry under the id — is left intact. -/
theorem C8_unload_stops_monitor_first_removes_iff_success
    (registry : Registry) (entry_id : String) (unload_ok : Bool)
    (entry : RegistryEntry)
    (hentry : dictGet entry_id registry = some entry)
    (hdict : keyCount entry_id registry ≤ 1) :
    (async_unload_entry registry entry_id unload_ok).effects
        = .stopMonitoring entry.door_station.device :: .unloadPlatforms entry_id ::
          (if unload_ok then [.removeRegistryEntry entry_id] else []) ∧
    (unload_ok = true →
        (async_unload_entry registry entry_id unload_ok).returned = .ok true ∧
        (async_unload_entry registry entry_id unload_ok).registry
            = dictPop entry_id registry ∧
        dictGet entry_id (async_unload_entry registry entry_id unload_ok).registry
            = none) ∧
    (unload_ok = false →
        (async_unload_entry registry entry_id unload_ok).returned = .ok false ∧
        (async_unload_entry registry entry_id unload_ok).registry = registry) := by
  cases unload_ok with
  | true =>
      have hres : async_unload_entry registry entry_id true
          = ⟨.ok true, dictPop entry_id registry,
             [.stopMonitoring entry.door_station.device,
              .unloadPlatforms entry_id,
              .removeRegistryEntry entry_id]⟩ := by
        simp [async_unload_entry, hentry]
      rw [hres]
      exact ⟨by simp, fun _ => ⟨rfl, rfl, dictGet_dictPop_self entry_id registry hdict⟩,
             fun hcontra => Bool.noConfusion hcontra⟩
  | false =>
      have hres : async_unload_entry registry entry_id false
          = ⟨.ok false, registry,
             [.stopMonitoring entry.door_station.device,
              .unloadPlatforms entry_id]⟩ := by
        simp [async_unload_entry, hentry]
      rw [hres]
      exact ⟨by simp, fun hcontra => Bool.noConfusion hcontra, fun _ => ⟨rfl, rfl⟩⟩

/-- C8 witness on a one-entry registry with a successful delegation. -/
theorem C8_unload_stops_monitor_first_removes_iff_success_witness :
    dictGet "entry1" [("entry1", sampleEntry)] = some sampleEntry ∧
    keyCount "entry1" [("entry1", sampleEntry)] ≤ 1 ∧
    ((async_unload_entry [("entry1", sampleEntry)] "entry1" true).effects
        = .stopMonitoring sampleEntry.door_station.device ::
          .unloadPlatforms "entry1" ::
          (if true then [.removeRegistryEntry "entry1"] else []) ∧
     (true = true →
        (async_unload_entry [("entry1", sampleEntry)] "entry1" true).returned
            = .ok true ∧
        (async_unload_entry [("entry1", sampleEntry)] "entry1" true).registry
            = dictPop "entry1" [("entry1", sampleEntry)] ∧
        dictGet "entry1"
            (async_unload_entry [("entry1", sampleEntry)] "entry1" true).registry
            = none) ∧
     (true = false →
        (async_unload_entry [("entry1", sampleEntry)] "entry1" true).returned
            = .ok false ∧
        (async_unload_entry [("entry1", sampleEntry)] "entry1" true).registry
            = [("entry1", sampleEntry)])) :=
  ⟨rfl, by decide,
   C8_unload_stops_monitor_first_removes_iff_success [("entry1", sampleEntry)]
     "entry1" true sampleEntry rfl (by decide)⟩

/-- C9: on any info map, the MAC getter returns the value under
"PRIMARY_MAC_ADDR" whenever that key is present, and otherwise the value
under "WIFI_MAC_ADDR" whenever that one is present. -/
theorem C9_mac_prefers_wired_key_then_wireless
    (doorstation_info : DeviceInfo) :
    (∀ mac, dictGet "PRIMARY_MAC_ADDR" doorstation_info = some mac →
        get_mac_address_from_doorstation_info doorstation_info = .ok mac) ∧
    (∀ mac, dictGet "PRIMARY_MAC_ADDR" doorstation_info = none →
        dictGet "WIFI_MAC_ADDR" doorstation_info = some mac →
        get_mac_address_from_doorstation_info doorstation_info = .ok mac) := by
  constructor
  · intro mac h
    simp [get_mac_address_from_doorstation_info, h]
  · intro mac h1 h2
    simp [get_mac_address_from_doorstation_info, h1, h2]

/-- C9 witness on a wired info map and on a wireless-only info map. -/
theorem C9_mac_prefers_wired_key_then_wireless_witness :
    (dictGet "PRIMARY_MAC_ADDR" sampleInfo = some "AABBCCDDEEFF" ∧
     get_mac_address_from_doorstation_info sampleInfo = .ok "AABBCCDDEEFF") ∧
    (dictGet "PRIMARY_MAC_ADDR" [("WIFI_MAC_ADDR", "112233445566")] = none ∧
     dictGet "WIFI_MAC_ADDR" [("WIFI_MAC_ADDR", "112233445566")]
        = some "112233445566" ∧
     get_mac_address_from_doorstation_info [("WIFI_MAC_ADDR", "112233445566")]
        = .ok "112233445566") :=
  ⟨⟨rfl, (C9_mac_prefers_wired_key_then_wireless sampleInfo).1 "AABBCCDDEEFF" rfl⟩,
   ⟨rfl, rfl,
    (C9_mac_prefers_wired_key_then_wireless [("WIFI_MAC_ADDR", "112233445566")]).2
      "112233445566" rfl rfl⟩⟩

/-- C4: for every event name, the bus event fired by `async_notify_event`
has topic exactly `DOMAIN ++ "_" ++ event` and a payload holding all four
media URLs read from the session's device client, plus a timestamp that is a
well-formed ISO-8601 UTC string. -/
theorem C4_event_topic_and_payload_shape
    (doorstation : ConfiguredDoorBird) (entityIds : List (String × String))
    (now : Datetime) (hnow : now.valid) (event : String) :
    (async_notify_event doorstation entityIds now event).event_type
        = DOMAIN ++ "_" ++ event ∧
    dictGet "live_video_url" (async_notify_event doorstation entityIds now event).data
        = some (some doorstation.device.live_video_url) ∧
    dictGet "live_image_url" (async_notify_event doorstation entityIds now event).data
        = some (some doorstation.device.live_image_url) ∧
    dictGet "rtsp_live_video_url" (async_notify_event doorstation entityIds now event).data
        = some (some doorstation.device.rtsp_live_video_url) ∧
    dictGet "html5_viewer_url" (async_notify_event doorstation entityIds now event).data
        = some (some doorstation.device.html5_viewer_url) ∧
    ∃ ts, dictGet "timestamp" (async_notify_event doorstation entityIds now event).data
            = some (some ts) ∧
          isISO8601UTC ts.data = true := by
  have hvalid := hnow
  exact ⟨rfl, rfl, rfl, rfl, rfl,
         ⟨now.isoformat, rfl, isISO8601UTC_isoformat now⟩⟩

/-- C4 witness at a concrete session, index, time and event name. -/
theorem C4_event_topic_and_payload_shape_witness :
    sampleTime.valid ∧
    ((async_notify_event ⟨some "Front Door", sampleDevice⟩ [] sampleTime
        "doorbell").event_type = DOMAIN ++ "_" ++ "doorbell" ∧
     dictGet "live_video_url"
        (async_notify_event ⟨some "Front Door", sampleDevice⟩ [] sampleTime
          "doorbell").data = some (some sampleDevice.live_video_url) ∧
     dictGet "live_image_url"
        (async_notify_event ⟨some "Front Door", sampleDevice⟩ [] sampleTime
          "doorbell").data = some (some sampleDevice.live_image_url) ∧
     dictGet "rtsp_live_video_url"
        (async_notify_event ⟨some "Front Door", sampleDevice⟩ [] sampleTime
          "doorbell").data = some (some sampleDevice.rtsp_live_video_url) ∧
     dictGet "html5_viewer_url"
        (async_notify_event ⟨some "Front Door", sampleDevice⟩ [] sampleTime
          "doorbell").data = some (some sampleDevice.html5_viewer_url) ∧
     ∃ ts, dictGet "timestamp"
            (async_notify_event ⟨some "Front Door", sampleDevice⟩ [] sampleTime
              "doorbell").data = some (some ts) ∧
           isISO8601UTC ts.data = true) :=
  ⟨by decide,
   C4_event_topic_and_payload_shape ⟨some "Front Door", sampleDevice⟩ []
     sampleTime (by decide) "doorbell"⟩

/-- C5 counterexample: with an empty entity-id index, the payload fired for
"doorbell" still carries the `ATTR_ENTITY_ID` key — bound to Python's
`None` — rather than omitting it, so the field is not absent as the claim
states. -/
theorem C5_counterexample_unmapped_entity_id_key_still_present :
    dictGet ATTR_ENTITY_ID
        (async_notify_event ⟨none, sampleDevice⟩ [] sampleTime "doorbell").data
        = some none ∧
    ¬ (dictGet ATTR_ENTITY_ID
        (async_notify_event ⟨none, sampleDevice⟩ [] sampleTime "doorbell").data
        = none) := by
  refine ⟨rfl, ?_⟩
  intro h
  exact Option.noConfusion h

/-- C5 (amended): the entity-id field of the published payload is always
present and holds exactly the result of looking the event name up in the
`DOOR_STATION_EVENT_ENTITY_IDS` index — the mapped entity id when a mapping
exists, and Python's `None` (not an absent key) when it does not. -/
theorem C5_entity_id_field_is_index_lookup
    (doorstation : ConfiguredDoorBird) (entityIds : List (String × String))
    (now : Datetime) (event : String) :
    dictGet ATTR_ENTITY_ID
        (async_notify_event doorstation entityIds now event).data
        = some (dictGet event entityIds) := rfl

/-- C6: for a bus event whose topic is the domain joined to a kind by "_",
the logbook describer never raises: it returns an entry whose entity id is
the index binding for the kind when one exists, and the entity id embedded
in the event payload otherwise. -/
theorem C6_describe_returns_index_binding_or_payload_fallback
    (entityIds : List (String × String)) (kind : String)
    (data : List (String × Option String)) :
    (∀ eid, dictGet kind entityIds = some eid →
        async_describe_logbook_event entityIds ⟨DOMAIN ++ "_" ++ kind, data⟩
          = .ok ⟨"Doorbird",
                 "Event " ++ (DOMAIN ++ "_" ++ kind) ++ " was fired",
                 some eid⟩) ∧
    (dictGet kind entityIds = none →
        async_describe_logbook_event entityIds ⟨DOMAIN ++ "_" ++ kind, data⟩
          = .ok ⟨"Doorbird",
                 "Event " ++ (DOMAIN ++ "_" ++ kind) ++ " was fired",
                 Option.join (dictGet ATTR_ENTITY_ID data)⟩) := by
  have heta : (⟨kind.data⟩ : String) = kind := by
    cases kind
    rfl
  have hsplit : splitFirst '_' (DOMAIN.data ++ '_' :: kind.data)
      = some (DOMAIN.data, kind.data) :=
    splitFirst_append '_' DOMAIN.data kind.data (by decide)
  constructor
  · intro eid heid
    simp [async_describe_logbook_event, String.data_append, hsplit, heta, heid]
  · intro hnone
    simp [async_describe_logbook_event, String.data_append, hsplit, heta, hnone]

/-- C6 witness for a mapped kind and for an unmapped kind with a payload
fallback. -/
theorem C6_describe_returns_index_binding_or_payload_fallback_witness :
    (dictGet "doorbell" [("doorbell", "binary_sensor.front")]
        = some "binary_sensor.front" ∧
     async_describe_logbook_event [("doorbell", "binary_sensor.front")]
        ⟨DOMAIN ++ "_" ++ "doorbell", []⟩
        = .ok ⟨"Doorbird",
               "Event " ++ (DOMAIN ++ "_" ++ "doorbell") ++ " was fired",
               some "binary_sensor.front"⟩) ∧
    (dictGet "doorbell" ([] : List (String × String)) = none ∧
     async_describe_logbook_event []
        ⟨DOMAIN ++ "_" ++ "doorbell", [(ATTR_ENTITY_ID, some "camera.front")]⟩
        = .ok ⟨"Doorbird",
               "Event " ++ (DOMAIN ++ "_" ++ "doorbell") ++ " was fired",
               Option.join (dictGet ATTR_ENTITY_ID
                 [(ATTR_ENTITY_ID, some "camera.front")])⟩) :=
  ⟨⟨rfl,
    (C6_describe_returns_index_binding_or_payload_fallback
       [("doorbell", "binary_sensor.front")] "doorbell" []).1
      "binary_sensor.front" rfl⟩,
   ⟨rfl,
    (C6_describe_returns_index_binding_or_payload_fallback []
       "doorbell" [(ATTR_ENTITY_ID, some "camera.front")]).2 rfl⟩⟩

end Doorbird
